import Mathlib

/-!
Verification development for the SV2 auth-bridge server
(`src/auth_bridge/server.py`).

Shallow embedding conventions:
* Host paths are canonical absolute paths, modelled as lists of segments
  (`HostPath`). `HostPath.resolve()` is the identity on canonical paths, so it is
  not modelled separately.
* The filesystem is an association list of files (path, contents) plus a
  list of existing directories. OS-level failures (permissions, disk
  errors) are not modelled, so the broad `try/except` wrappers in the
  Python code never fire in the model.
* Inbound HTTP parameter maps are association lists with unique keys;
  `dict.get` is `lookup_param`, `k in params` is `has_param`.
* Subprocess invocations are modelled by an oracle value (`ProcResult`)
  per invocation site: a completed process with exit code and captured
  stdout/stderr, a timeout, or a generic exception.
-/

/-- A canonical absolute host path, as its list of segments. -/
abbrev HostPath := List String

/-- Filesystem model: files as an association list from path to contents
(first binding wins), plus the set of existing directories. -/
structure FS where
  files : List (HostPath × String)
  dirs : List HostPath
deriving DecidableEq, Repr

/-- `path.exists()` for a file. -/
def file_exists (fs : FS) (p : HostPath) : Bool :=
  fs.files.any (fun kv => decide (kv.1 = p))

/-- `dir.exists()` for a directory. -/
def dir_exists (fs : FS) (p : HostPath) : Bool :=
  fs.dirs.any (fun d => decide (d = p))

/-- `path.write_text(c)` / `json.dump`: create or overwrite the file. -/
def write_file (p : HostPath) (c : String) (fs : FS) : FS :=
  ⟨(p, c) :: fs.files, fs.dirs⟩

/-- Read a file back (first binding wins, matching `write_file`). -/
def read_file (fs : FS) (p : HostPath) : Option String :=
  (fs.files.find? (fun kv => decide (kv.1 = p))).map (·.2)

/-- `d.mkdir(parents=True, exist_ok=True)`: `d` and all its ancestors
come to exist. -/
def mkdir_parents (d : HostPath) (fs : FS) : FS :=
  ⟨fs.files, (List.range (d.length + 1)).map (fun i => d.take i) ++ fs.dirs⟩

/-- An inbound parameter map (`dict(request.query)`), keys unique. -/
abbrev Params := List (String × String)

/-- `params.get(k)`. -/
def lookup_param (ps : Params) (k : String) : Option String :=
  (ps.find? (fun kv => decide (kv.1 = k))).map (·.2)

/-- `k in params`. -/
def has_param (ps : Params) (k : String) : Bool :=
  (ps.find? (fun kv => decide (kv.1 = k))).isSome

/-- The SV2 license directory for a guest identity `u` under the Wine
root: `drive_c/users/<u>/AppData/Roaming/Dreamtonics/Synthesizer V
Studio 2/license`. -/
def license_dir (root : HostPath) (u : String) : HostPath :=
  root ++ ["drive_c", "users", u, "AppData", "Roaming", "Dreamtonics",
    "Synthesizer V Studio 2", "license"]

/-- The sentinel (code-verifier) file `cv` paired with identity `u`. -/
def cv_file (root : HostPath) (u : String) : HostPath :=
  license_dir root u ++ ["cv"]

/-- The target (code) file `cb` paired with identity `u`. -/
def cb_file (root : HostPath) (u : String) : HostPath :=
  license_dir root u ++ ["cb"]

/-- Parent directory of the diagnostic payload file:
`drive_c/users/Public`. -/
def token_dir (root : HostPath) : HostPath :=
  root ++ ["drive_c", "users", "Public"]

/-- The diagnostic payload file `sv2_auth_token.json`. -/
def token_file (root : HostPath) : HostPath :=
  token_dir root ++ ["sv2_auth_token.json"]

/-- `possible_users = ["steamuser", "Public", os.environ.get("USER", "user")]`;
`envUser` is the value of `USER` with the `"user"` default applied. -/
def possible_users (envUser : String) : List String :=
  ["steamuser", "Public", envUser]

/-- `_write_auth_code_to_cb_file(auth_code)`: probe the candidate guest
identities in order; the first whose `cv` sentinel exists gets
`auth_code` written verbatim into its `cb` file (early return). If no
sentinel is found, fall back to the `steamuser` license directory if it
exists; otherwise return `False` without writing. -/
def write_auth_code_to_cb_file (root : HostPath) (envUser : String)
    (auth_code : String) (fs : FS) : Bool × FS :=
  match (possible_users envUser).find?
      (fun u => file_exists fs (cv_file root u)) with
  | some u => (true, write_file (cb_file root u) auth_code fs)
  | none =>
    if dir_exists fs (license_dir root "steamuser") then
      (true, write_file (cb_file root "steamuser") auth_code fs)
    else
      (false, fs)

/-- Rendering of the JSON diagnostic payload written by
`_store_auth_payload`; no claim inspects this text. -/
def auth_payload_content (tok : Option String) (ps : Params) (now : Nat) :
    String :=
  let tokStr := match tok with
    | some t => "\x22" ++ t ++ "\x22"
    | none => "null"
  let pairs := ps.map (fun kv =>
    "\x22" ++ kv.1 ++ "\x22: \x22" ++ kv.2 ++ "\x22")
  "\x7b\x22access_token\x22: " ++ tokStr ++ ", \x22auth_params\x22: \x7b"
    ++ String.intercalate ", " pairs ++ "\x7d, \x22timestamp\x22: "
    ++ toString now ++ "\x7d"

/-- `_store_auth_payload(params)`: create the payload file directory,
write the diagnostic JSON payload, run the registry injection
(subprocess only, no filesystem effect inside the root, Bool result
discarded), then, when a non-empty `code` parameter is present, call
`_write_auth_code_to_cb_file` and DISCARD its Bool result. Returns
`True` unless an OS exception occurred (never, in this model). -/
def store_auth_payload (root : HostPath) (envUser : String) (now : Nat)
    (authToken : Option String) (params : Params) (fs : FS) : Bool × FS :=
  let fs1 := write_file (token_file root)
    (auth_payload_content authToken params now) (mkdir_parents (token_dir root) fs)
  let fs2 :=
    match lookup_param params "code" with
    | some c => if c = "" then fs1 else (write_auth_code_to_cb_file root envUser c fs1).2
    | none => fs1
  (true, fs2)

/-- Derived user info stored on the direct-access-token path. -/
structure UserInfo where
  user_id : String
  username : String
  email : String
deriving DecidableEq, Repr

/-- The mutable fields of `AuthBridgeServer` that the capture and status
handlers read or write. -/
structure ServerState where
  auth_token : Option String
  user_info : Option UserInfo
  last_auth_params : Option Params
deriving DecidableEq, Repr

/-- `params.get(k)` filtered through Python truthiness: a present but
empty string behaves like an absent value in `or` chains and `if`. -/
def get_truthy (ps : Params) (k : String) : Option String :=
  match lookup_param ps k with
  | some v => if v = "" then none else some v
  | none => none

/-- `params.get("access_token") or params.get("token")`, as tested by
`if access_token:`. -/
def access_token_of (ps : Params) : Option String :=
  (get_truthy ps "access_token").orElse (fun _ => get_truthy ps "token")

/-- `x or y or ""` over two parameter keys (Python truthiness). -/
def param_or2 (ps : Params) (k1 k2 : String) : String :=
  match get_truthy ps k1 with
  | some v => v
  | none => (get_truthy ps k2).getD ""

/-- The `user_info` dict built on the direct-access-token path. -/
def user_info_of (ps : Params) : UserInfo :=
  { user_id := param_or2 ps "user_id" "uid"
  , username := param_or2 ps "username" "user"
  , email := (get_truthy ps "email").getD "" }

/-- The distinct responses `auth_callback_handler` can produce. -/
inductive HandlerResult where
  /-- 200 HTML page on the code path (`success` from the store). -/
  | successHtml
  /-- 500 HTML page on the code path (store reported failure). -/
  | failureHtml
  /-- 200 HTML page on the direct-token path (after `_inject_auth_token`). -/
  | tokenSuccessHtml
  /-- 400 JSON error: no code or token present. -/
  | invalidRequest
deriving DecidableEq, Repr

/-- The call `self._inject_auth_token()` on the direct-token path: the
class `AuthBridgeServer` defines no method `_inject_auth_token`, so the
attribute lookup raises `AttributeError` (modelled as `Except.error`). -/
def inject_auth_token : Except Unit Bool :=
  Except.error ()

/-- `auth_callback_handler(request)`: records the raw parameter map
unconditionally, then takes the code path (`"code" in params`), else the
direct-token path, else reports a 400 invalid-request. The result is
`Except.error ()` when an uncaught exception escapes the handler. -/
def auth_callback_handler (root : HostPath) (envUser : String) (now : Nat)
    (params : Params) (st : ServerState) (fs : FS) :
    Except Unit HandlerResult × ServerState × FS :=
  let st1 := { st with last_auth_params := some params }
  if has_param params "code" then
    let res := store_auth_payload root envUser now st1.auth_token params fs
    if res.1 then (Except.ok HandlerResult.successHtml, st1, res.2)
    else (Except.ok HandlerResult.failureHtml, st1, res.2)
  else
    match access_token_of params with
    | some tok =>
      let st2 := { st1 with auth_token := some tok
                          , user_info := some (user_info_of params) }
      match inject_auth_token with
      | Except.ok _ => (Except.ok HandlerResult.tokenSuccessHtml, st2, fs)
      | Except.error e => (Except.error e, st2, fs)
    | none => (Except.ok HandlerResult.invalidRequest, st1, fs)

/-- The JSON body served by `auth_status_handler`. -/
structure StatusView where
  authenticated : Bool
  has_auth_code : Bool
  user_info : Option UserInfo
deriving DecidableEq, Repr

/-- `auth_status_handler(request)`: pure read of the session state.
`bool(self.last_auth_params and "code" in self.last_auth_params)`: an
empty stored dict is falsy in Python. -/
def auth_status_handler (st : ServerState) : StatusView :=
  { authenticated := st.auth_token.isSome
  , has_auth_code :=
      match st.last_auth_params with
      | some ps => !ps.isEmpty && has_param ps "code"
      | none => false
  , user_info := st.user_info }

/-- `"\\".join(parts)`: join path segments with a single backslash. -/
def joinBS : List String -> String
  | [] => ""
  | [s] => s
  | s :: rest => s ++ "\x5c" ++ joinBS (rest)

/-- `str(unix_path)` for a canonical absolute path. -/
def unix_path_string (p : HostPath) : String :=
  "/" ++ String.intercalate "/" p

/-- `_to_windows_path(unix_path, wine_prefix)`: when the path lies under
the drive_c subtree of the root, render it as `C:\` followed by the
backslash-joined remaining segments; otherwise (`relative_to` raises)
return the unix rendering of the original path unchanged. Pure. -/
def to_windows_path (root : HostPath) (p : HostPath) : String :=
  let dc := root ++ ["drive_c"]
  if p.take dc.length = dc then
    "C:" ++ "\x5c" ++ joinBS (p.drop dc.length)
  else
    unix_path_string p

/-- Split a character list on backslashes, accumulator in reverse. -/
def splitBSAux : List Char -> List Char -> List String
  | [], acc => [⟨acc.reverse⟩]
  | c :: cs, acc =>
    if c = '\x5c' then ⟨acc.reverse⟩ :: splitBSAux cs []
    else splitBSAux cs (c :: acc)

/-- Modelled from the spec: the reverse mapping of §8 ("translating then
reverse-mapping (given the same root) recovers p") has no counterpart in
the source; it parses a guest `C:\`-style string back into a host path
under the drive_c subtree of the same root, and parses any other string
as a unix path. -/
def from_windows_path (root : HostPath) (g : String) : HostPath :=
  if g.data.take 3 = ['C', ':', '\x5c'] then
    root ++ ["drive_c"] ++
      (if (g.data.drop 3).isEmpty then [] else splitBSAux (g.data.drop 3) [])
  else ((g.splitOn "/").filter (fun s => s ≠ "") : List String)

/-- A path segment free of the guest separator character. -/
def seg_ok (s : String) : Prop :=
  s ≠ "" ∧ '\x5c' ∉ s.data

instance (s : String) : Decidable (seg_ok s) := by
  unfold seg_ok; infer_instance

/-- Check whether `needle` starts `hay` (character lists). -/
def startsWithL : List Char -> List Char -> Bool
  | _, [] => true
  | [], _ :: _ => false
  | h :: hs, n :: ns => h = n && startsWithL hs ns

/-- `needle in hay` for character lists (contiguous substring). -/
def containsL (needle : List Char) : List Char -> Bool
  | [] => startsWithL [] needle
  | h :: hs => startsWithL (h :: hs) needle || containsL needle hs

/-- Python `needle in hay` on strings. -/
def contains_str (hay needle : String) : Bool :=
  containsL needle.data hay.data

/-- `s.lower()`: character-wise lowering (the scanned signatures are
ASCII). -/
def lower_str (s : String) : String :=
  String.mk (s.data.map Char.toLower)

/-- The outcome of one external invocation (`subprocess.run`): a
completed process with exit code and captured stdout/stderr, a
`TimeoutExpired`, or a generic exception. -/
inductive ProcResult where
  | completed (exitCode : Int) (stdout stderr : String)
  | timedOut
  | errored
deriving DecidableEq, Repr

/-- Method 0 (bottles-cli shell) error-signature scan over stderr:
`"/bin/sh" in stderr or "unexpected" in stderr.lower() or
"ShellExecuteEx failed" in stderr`. -/
def shell_error0 (stderr : String) : Bool :=
  contains_str stderr "/bin/sh" || contains_str (lower_str stderr) "unexpected"
    || contains_str stderr "ShellExecuteEx failed"

/-- Method 1 (bottles-cli cmd batch) error-signature scan over stderr. -/
def cmd_error1 (stderr : String) : Bool :=
  contains_str stderr "Executable file path does not exist"
    || contains_str stderr "ShellExecuteEx" || contains_str stderr "/bin/sh"
    || contains_str (lower_str stderr) "unexpected"

/-- Method 2 (bottles-cli rundll32) error-signature scan over stderr. -/
def shell_error2 (stderr : String) : Bool :=
  contains_str stderr "/bin/sh" || contains_str (lower_str stderr) "unexpected"

/-- The oracle for one managed-chain run: the result each of the four
invocation sites would produce if reached. -/
structure ManagedExec where
  shellRes : ProcResult
  cmdRes : ProcResult
  rundllRes : ProcResult
  directRes : ProcResult
deriving DecidableEq, Repr

/-- Method 0 success test: completed, exit 0, and no signature in
stderr; a timeout or exception falls through to the next method. -/
def managed_success0 : ProcResult -> Bool
  | ProcResult.completed rc _ se => rc = 0 && !shell_error0 se
  | _ => false

/-- Method 1 success test. -/
def managed_success1 : ProcResult -> Bool
  | ProcResult.completed rc _ se => rc = 0 && !cmd_error1 se
  | _ => false

/-- Method 2 success test. -/
def managed_success2 : ProcResult -> Bool
  | ProcResult.completed rc _ se => rc = 0 && !shell_error2 se
  | _ => false

/-- Method 3 (direct SV2 launch) success test: exit code zero alone; no
signature scan; timeout or exception returns False terminally (which,
for the last method, coincides with exhaustion). -/
def managed_success3 : ProcResult -> Bool
  | ProcResult.completed rc _ _ => rc = 0
  | _ => false

/-- The result of the invocation site for method `k`. -/
def managed_attempt (ex : ManagedExec) : Nat -> ProcResult
  | 0 => ex.shellRes
  | 1 => ex.cmdRes
  | 2 => ex.rundllRes
  | _ => ex.directRes

/-- The classification applied to method `k`. -/
def managed_classify : Nat -> ProcResult -> Bool
  | 0 => managed_success0
  | 1 => managed_success1
  | 2 => managed_success2
  | _ => managed_success3

/-- `forward_uri_to_wine`, managed (Bottles) branch: the four methods in
order, each a `try` block ending in `if ok: return True`; a failed,
timed-out or errored attempt advances to the next method. Returns the
overall Bool together with the list of invocation sites reached. -/
def run_managed_chain (ex : ManagedExec) : Bool × List Nat :=
  if managed_success0 ex.shellRes then (true, [0])
  else if managed_success1 ex.cmdRes then (true, [0, 1])
  else if managed_success2 ex.rundllRes then (true, [0, 1, 2])
  else (managed_success3 ex.directRes, [0, 1, 2, 3])

/-- The oracle for one plain (no management tool) chain run. -/
structure PlainExec where
  startRes : ProcResult
  rundllRes : ProcResult
deriving DecidableEq, Repr

/-- Plain-chain success test for either method: exit code zero alone;
no timeout is configured and no output scan is performed. -/
def plain_success : ProcResult -> Bool
  | ProcResult.completed rc _ _ => rc = 0
  | _ => false

/-- The result of the plain invocation site for method `k`. -/
def plain_attempt (ex : PlainExec) : Nat -> ProcResult
  | 0 => ex.startRes
  | _ => ex.rundllRes

/-- `forward_uri_to_wine`, plain branch: `wine start <uri>` then
`wine rundll32 url.dll,FileProtocolHandler <uri>`, both inside one
`try`; judged by exit code only. An exception (modelled also by
`timedOut`, though no timeout is configured here) aborts the whole
block with False. -/
def run_plain_chain (ex : PlainExec) : Bool × List Nat :=
  match ex.startRes with
  | ProcResult.completed rc _ _ =>
    if rc = 0 then (true, [0])
    else
      match ex.rundllRes with
      | ProcResult.completed rc2 _ _ => (decide (rc2 = 0), [0, 1])
      | _ => (false, [0, 1])
  | _ => (false, [0])

/-! ### Helper lemmas (shared) -/

theorem file_exists_write (p : HostPath) (c : String) (fs : FS) (q : HostPath) :
    file_exists (write_file p c fs) q = (decide (p = q) || file_exists fs q) := by
  simp [file_exists, write_file]

theorem file_exists_mkdir (d : HostPath) (fs : FS) (q : HostPath) :
    file_exists (mkdir_parents d fs) q = file_exists fs q := rfl

theorem dir_exists_write (p : HostPath) (c : String) (fs : FS) (q : HostPath) :
    dir_exists (write_file p c fs) q = dir_exists fs q := rfl

theorem read_write (p : HostPath) (c : String) (fs : FS) :
    read_file (write_file p c fs) p = some c := by
  simp [read_file, write_file, List.find?_cons_of_pos]

theorem dir_exists_mkdir_of_longer (d : HostPath) (fs : FS) (q : HostPath)
    (h : d.length < q.length) :
    dir_exists (mkdir_parents d fs) q = dir_exists fs q := by
  unfold dir_exists mkdir_parents
  simp only [List.any_append]
  have hfalse : (((List.range (d.length + 1)).map (fun i => d.take i)).any
      fun x => decide (x = q)) = false := by
    rw [List.any_eq_false]
    intro x hx
    simp only [List.mem_map] at hx
    obtain ⟨i, _, rfl⟩ := hx
    simp only [decide_eq_true_eq]
    intro hcontra
    have := congrArg List.length hcontra
    simp only [List.length_take] at this
    omega
  rw [hfalse]
  simp

theorem license_dir_length (root : HostPath) (u : String) :
    (license_dir root u).length = root.length + 8 := by
  simp [license_dir]

theorem cv_file_length (root : HostPath) (u : String) :
    (cv_file root u).length = root.length + 9 := by
  simp [cv_file, license_dir]

theorem cb_file_length (root : HostPath) (u : String) :
    (cb_file root u).length = root.length + 9 := by
  simp [cb_file, license_dir]

theorem token_file_length (root : HostPath) :
    (token_file root).length = root.length + 4 := by
  simp [token_file, token_dir]

theorem token_file_ne_cv (root : HostPath) (u : String) :
    token_file root ≠ cv_file root u := by
  intro h
  have := congrArg List.length h
  rw [token_file_length, cv_file_length] at this
  omega

theorem token_file_ne_cb (root : HostPath) (u : String) :
    token_file root ≠ cb_file root u := by
  intro h
  have := congrArg List.length h
  rw [token_file_length, cb_file_length] at this
  omega

theorem find?_eq_some_unique {α : Type} (l : List α) (p : α -> Bool) (u : α)
    (hu : u ∈ l) (hp : p u = true)
    (hunique : ∀ v ∈ l, v ≠ u -> p v = false) : l.find? p = some u := by
  induction l with
  | nil => cases hu
  | cons a as ih =>
    by_cases hau : a = u
    · subst hau
      exact List.find?_cons_of_pos _ hp
    · have hpa : p a = false := hunique a (List.mem_cons_self a as) hau
      rw [List.find?_cons_of_neg _ (by simp [hpa])]
      apply ih
      · rcases List.mem_cons.mp hu with h | h
        · exact absurd h.symm hau
        · exact h
      · exact fun v hv => hunique v (List.mem_cons_of_mem a hv)

theorem string_mk_data (s : String) : String.mk s.data = s := by
  cases s
  rfl

theorem splitBSAux_no_sep (cs : List Char) (h : '\x5c' ∉ cs) (l : List Char)
    (acc : List Char) :
    splitBSAux (cs ++ l) acc = splitBSAux l (cs.reverse ++ acc) := by
  induction cs generalizing acc with
  | nil => simp
  | cons c cs ih =>
    have hc : ¬c = '\x5c' := by
      intro hcc
      exact h (by rw [hcc]; exact List.mem_cons_self _ _)
    rw [List.cons_append]
    rw [splitBSAux]
    rw [if_neg hc]
    rw [ih (fun hmem => h (List.mem_cons_of_mem _ hmem))]
    simp

theorem joinBS_cons_cons_data (s t : String) (rest2 : List String) :
    (joinBS (s :: t :: rest2)).data
      = s.data ++ ('\x5c' :: (joinBS (t :: rest2)).data) := by
  show (s ++ "\x5c" ++ joinBS (t :: rest2)).data = _
  rw [String.data_append, String.data_append]
  simp

theorem splitBS_joinBS (segs : List String) (hne : segs ≠ [])
    (hok : ∀ s ∈ segs, seg_ok s) :
    splitBSAux (joinBS segs).data [] = segs := by
  induction segs with
  | nil => exact absurd rfl hne
  | cons s rest ih =>
    cases rest with
    | nil =>
      have hs := hok s (List.mem_cons_self _ _)
      have h1 : splitBSAux (s.data ++ []) [] = splitBSAux [] (s.data.reverse ++ []) :=
        splitBSAux_no_sep s.data hs.2 [] []
      simp only [List.append_nil] at h1
      rw [joinBS, h1, splitBSAux]
      simp [string_mk_data]
    | cons t rest2 =>
      have hs := hok s (List.mem_cons_self _ _)
      rw [joinBS_cons_cons_data, splitBSAux_no_sep s.data hs.2, splitBSAux]
      rw [if_pos rfl]
      rw [ih (List.cons_ne_nil t rest2) (fun v hv => hok v (List.mem_cons_of_mem _ hv))]
      simp [string_mk_data]

theorem joinBS_data_ne_nil (s : String) (rest : List String) (hs : s ≠ "") :
    (joinBS (s :: rest)).data ≠ [] := by
  cases rest with
  | nil =>
    intro h
    apply hs
    have h2 : String.mk s.data = String.mk [] := by
      rw [show (joinBS [s]).data = s.data from rfl] at h
      rw [h]
    rw [string_mk_data] at h2
    exact h2
  | cons t rest2 =>
    rw [joinBS_cons_cons_data]
    intro h
    rcases List.append_eq_nil.mp h with ⟨h1, h2⟩
    exact List.noConfusion h2

/-- The guest rendering of a drive-subtree path, with its `C:\` header
exposed at the character level. -/
theorem to_windows_data (root : HostPath) (rest : List String) :
    (to_windows_path root (root ++ "drive_c" :: rest)).data
      = 'C' :: ':' :: '\x5c' :: (joinBS rest).data := by
  have hp : root ++ "drive_c" :: rest = (root ++ ["drive_c"]) ++ rest := by simp
  rw [to_windows_path]
  simp only [hp, List.take_left, List.drop_left, if_true]
  rw [String.data_append, String.data_append]
  rfl

theorem from_to_windows (root : HostPath) (rest : List String)
    (hok : ∀ s ∈ rest, seg_ok s) :
    from_windows_path root (to_windows_path root (root ++ "drive_c" :: rest))
      = root ++ "drive_c" :: rest := by
  rw [from_windows_path, to_windows_data]
  cases rest with
  | nil => simp [joinBS]
  | cons s rest2 =>
    have hne := joinBS_data_ne_nil s rest2 (hok s (List.mem_cons_self _ _)).1
    have hcond : List.take 3 ('C' :: ':' :: '\x5c' :: (joinBS (s :: rest2)).data)
        = ['C', ':', '\x5c'] := rfl
    rw [if_pos hcond]
    have hdrop : ('C' :: ':' :: '\x5c' :: (joinBS (s :: rest2)).data).drop 3
        = (joinBS (s :: rest2)).data := rfl
    rw [hdrop]
    rw [if_neg (by simpa [List.isEmpty_iff] using hne)]
    rw [splitBS_joinBS (s :: rest2) (List.cons_ne_nil _ _) hok]
    simp

theorem to_windows_outside (root : HostPath) (p : HostPath)
    (h : p.take (root.length + 1) ≠ root ++ ["drive_c"]) :
    to_windows_path root p = unix_path_string p := by
  simp [to_windows_path, h]

theorem token_dir_length (root : HostPath) :
    (token_dir root).length = root.length + 3 := by
  simp [token_dir]

/-- When no candidate identity has a sentinel, the cb-writer reduces to
the `steamuser`-directory fallback. -/
theorem write_cb_no_sentinel (root : HostPath) (envUser code : String) (fs : FS)
    (hnone : ∀ u ∈ possible_users envUser,
      file_exists fs (cv_file root u) = false) :
    write_auth_code_to_cb_file root envUser code fs
      = if dir_exists fs (license_dir root "steamuser")
        then (true, write_file (cb_file root "steamuser") code fs)
        else (false, fs) := by
  have hfind : (possible_users envUser).find?
      (fun u => file_exists fs (cv_file root u)) = none :=
    List.find?_eq_none.mpr (fun v hv => by simp [hnone v hv])
  rw [write_auth_code_to_cb_file, hfind]

/-- C4 (confirmed): for every authorization code, when exactly one
candidate guest identity has its sentinel (cv) file present, the
cb-writer places exactly the bytes of the code, with no transform, into
that identity's paired cb file, stops probing (the returned filesystem
is exactly the input plus the one cb write), and reports
delivered = true. -/
theorem C4_single_sentinel_write (root : HostPath) (envUser : String)
    (code : String) (fs : FS) (u : String)
    (hu : u ∈ possible_users envUser)
    (hcv : file_exists fs (cv_file root u) = true)
    (honly : ∀ v ∈ possible_users envUser, v ≠ u →
      file_exists fs (cv_file root v) = false) :
    write_auth_code_to_cb_file root envUser code fs
        = (true, write_file (cb_file root u) code fs) ∧
      read_file (write_auth_code_to_cb_file root envUser code fs).2
        (cb_file root u) = some code := by
  have hfind : (possible_users envUser).find?
      (fun v => file_exists fs (cv_file root v)) = some u :=
    find?_eq_some_unique _ _ u hu hcv honly
  refine ⟨?_, ?_⟩
  · rw [write_auth_code_to_cb_file, hfind]
  · rw [write_auth_code_to_cb_file, hfind]
    exact read_write _ _ _

theorem C4_witness :
    write_auth_code_to_cb_file ["wine"] "user" "abc123"
        ⟨[(cv_file ["wine"] "steamuser", "")], []⟩
        = (true, write_file (cb_file ["wine"] "steamuser") "abc123"
            ⟨[(cv_file ["wine"] "steamuser", "")], []⟩) ∧
      read_file (write_auth_code_to_cb_file ["wine"] "user" "abc123"
        ⟨[(cv_file ["wine"] "steamuser", "")], []⟩).2
        (cb_file ["wine"] "steamuser") = some "abc123" :=
  C4_single_sentinel_write ["wine"] "user" "abc123"
    ⟨[(cv_file ["wine"] "steamuser", "")], []⟩ "steamuser"
    (by decide) (by decide) (by decide)

/-- C3 counterexample: with no sentinel anywhere, a `Public` candidate
directory existing, and the `steamuser` directory absent, the cb-writer
reports delivered = false and writes nothing, although an existing
candidate directory (the first existing one, in candidate order) was
available. -/
theorem C3_counterexample :
    (∀ u ∈ possible_users "user",
      file_exists ⟨[], [license_dir ["wine"] "Public"]⟩
        (cv_file ["wine"] u) = false) ∧
    dir_exists ⟨[], [license_dir ["wine"] "Public"]⟩
      (license_dir ["wine"] "Public") = true ∧
    write_auth_code_to_cb_file ["wine"] "user" "abc123"
        ⟨[], [license_dir ["wine"] "Public"]⟩
      = (false, ⟨[], [license_dir ["wine"] "Public"]⟩) := by
  decide

/-- C3 (amended): if no candidate guest identity has a sentinel file,
the cb-writer falls back only to the `steamuser` license directory:
when that directory exists the code is written to `steamuser`'s cb file
with delivered = true, and otherwise it reports delivered = false and
writes nothing, even if another candidate's directory exists. -/
theorem C3_fallback_steamuser_only (root : HostPath) (envUser code : String)
    (fs : FS)
    (hnone : ∀ u ∈ possible_users envUser,
      file_exists fs (cv_file root u) = false) :
    write_auth_code_to_cb_file root envUser code fs
      = if dir_exists fs (license_dir root "steamuser")
        then (true, write_file (cb_file root "steamuser") code fs)
        else (false, fs) :=
  write_cb_no_sentinel root envUser code fs hnone

theorem C3_witness :
    write_auth_code_to_cb_file ["wine"] "user" "abc123"
        ⟨[], [license_dir ["wine"] "steamuser"]⟩
      = if dir_exists ⟨[], [license_dir ["wine"] "steamuser"]⟩
            (license_dir ["wine"] "steamuser")
        then (true, write_file (cb_file ["wine"] "steamuser") "abc123"
            ⟨[], [license_dir ["wine"] "steamuser"]⟩)
        else (false, ⟨[], [license_dir ["wine"] "steamuser"]⟩) :=
  C3_fallback_steamuser_only ["wine"] "user" "abc123"
    ⟨[], [license_dir ["wine"] "steamuser"]⟩ (by decide)

/-- C1 counterexample: on an empty filesystem (no candidate directory
exists at all), the store still reports delivered = true even though no
cb target file was created, contradicting "delivered = (primary channel
placed the code)" and "if no candidate directory exists at all,
delivered = false". -/
theorem C1_counterexample :
    (∀ u ∈ possible_users "user",
      dir_exists (⟨[], []⟩ : FS) (license_dir ["wine"] u) = false) ∧
    (store_auth_payload ["wine"] "user" 0 none
      [("code", "abc123")] ⟨[], []⟩).1 = true ∧
    ∀ u ∈ possible_users "user",
      file_exists (store_auth_payload ["wine"] "user" 0 none
        [("code", "abc123")] ⟨[], []⟩).2 (cb_file ["wine"] u) = false := by
  decide

/-- C1 (amended): the inner cb-writer honours the claim — when no
candidate has a sentinel and the `steamuser` directory is absent it
returns delivered = false and creates no target file — but the store
(`_store_auth_payload`) discards the inner Bool and reports true
whenever the diagnostic payload write succeeds, so the store's return
value does not equal "the primary channel placed the code". -/
theorem C1_store_discards_cb_result (root : HostPath) (envUser : String)
    (now : Nat) (tok : Option String) (params : Params) (fs : FS) (c : String)
    (hc : lookup_param params "code" = some c) (hcne : c ≠ "")
    (hnocv : ∀ u ∈ possible_users envUser,
      file_exists fs (cv_file root u) = false)
    (hnodir : dir_exists fs (license_dir root "steamuser") = false) :
    write_auth_code_to_cb_file root envUser c fs = (false, fs) ∧
    (store_auth_payload root envUser now tok params fs).1 = true ∧
    ∀ u : String,
      file_exists (store_auth_payload root envUser now tok params fs).2
          (cb_file root u)
        = file_exists fs (cb_file root u) := by
  have hinner : write_auth_code_to_cb_file root envUser c fs = (false, fs) := by
    rw [write_cb_no_sentinel root envUser c fs hnocv, if_neg (by simp [hnodir])]
  refine ⟨hinner, rfl, ?_⟩
  intro u
  have hcv1 : ∀ v ∈ possible_users envUser,
      file_exists
        (write_file (token_file root) (auth_payload_content tok params now)
          (mkdir_parents (token_dir root) fs)) (cv_file root v) = false := by
    intro v hv
    rw [file_exists_write, file_exists_mkdir,
      decide_eq_false (token_file_ne_cv root v), hnocv v hv]
    rfl
  have hdir1 : dir_exists
      (write_file (token_file root) (auth_payload_content tok params now)
        (mkdir_parents (token_dir root) fs))
      (license_dir root "steamuser") = false := by
    rw [dir_exists_write, dir_exists_mkdir_of_longer _ _ _
      (by rw [token_dir_length, license_dir_length]; omega), hnodir]
  have hinner1 : write_auth_code_to_cb_file root envUser c
      (write_file (token_file root) (auth_payload_content tok params now)
        (mkdir_parents (token_dir root) fs))
      = (false, write_file (token_file root) (auth_payload_content tok params now)
          (mkdir_parents (token_dir root) fs)) := by
    rw [write_cb_no_sentinel root envUser c _ hcv1, if_neg (by simp [hdir1])]
  show file_exists (store_auth_payload root envUser now tok params fs).2 _ = _
  rw [store_auth_payload]
  simp only [hc, if_neg hcne, hinner1]
  rw [file_exists_write, file_exists_mkdir,
    decide_eq_false (token_file_ne_cb root u)]
  rfl

theorem C1_witness :
    write_auth_code_to_cb_file ["wine"] "user" "abc123" ⟨[], []⟩
        = (false, ⟨[], []⟩) ∧
      (store_auth_payload ["wine"] "user" 0 none
        [("code", "abc123")] ⟨[], []⟩).1 = true :=
  ⟨(C1_store_discards_cb_result ["wine"] "user" 0 none [("code", "abc123")]
      ⟨[], []⟩ "abc123" (by decide) (by decide) (by decide) (by decide)).1,
    (C1_store_discards_cb_result ["wine"] "user" 0 none [("code", "abc123")]
      ⟨[], []⟩ "abc123" (by decide) (by decide) (by decide) (by decide)).2.1⟩

/-- C2 counterexample: a request carrying neither a code nor a token is
answered with the invalid-request condition, yet the Session State is
NOT left unchanged: the last-capture record is overwritten before the
branch, which flips the status query's has_auth_code field. -/
theorem C2_counterexample :
    (auth_callback_handler ["wine"] "user" 0 [("state", "s")]
        ⟨none, none, some [("code", "x")]⟩ ⟨[], []⟩).1
      = Except.ok HandlerResult.invalidRequest ∧
    (auth_status_handler
      ⟨none, none, some [("code", "x")]⟩).has_auth_code = true ∧
    (auth_status_handler
      (auth_callback_handler ["wine"] "user" 0 [("state", "s")]
        ⟨none, none, some [("code", "x")]⟩ ⟨[], []⟩).2.1).has_auth_code
      = false :=
  ⟨rfl, by decide, by decide⟩

/-- C2 (amended): for every inbound parameter map containing neither an
authorization code nor an access token, the capture endpoint reports
the invalid-request condition and leaves the stored token, user info
and filesystem unchanged, but it unconditionally overwrites the
last-capture record with the inbound parameter map before branching. -/
theorem C2_invalid_request_state (root : HostPath) (envUser : String)
    (now : Nat) (params : Params) (st : ServerState) (fs : FS)
    (hcode : has_param params "code" = false)
    (htok : access_token_of params = none) :
    (auth_callback_handler root envUser now params st fs).1
        = Except.ok HandlerResult.invalidRequest ∧
      (auth_callback_handler root envUser now params st fs).2.1.auth_token
        = st.auth_token ∧
      (auth_callback_handler root envUser now params st fs).2.1.user_info
        = st.user_info ∧
      (auth_callback_handler root envUser now params st fs).2.1.last_auth_params
        = some params ∧
      (auth_callback_handler root envUser now params st fs).2.2 = fs := by
  simp [auth_callback_handler, hcode, htok]

theorem C2_witness :
    (auth_callback_handler ["wine"] "user" 0 [("state", "s")]
        ⟨some "t", none, none⟩ ⟨[], []⟩).1
      = Except.ok HandlerResult.invalidRequest ∧
    (auth_callback_handler ["wine"] "user" 0 [("state", "s")]
        ⟨some "t", none, none⟩ ⟨[], []⟩).2.1.auth_token
      = (⟨some "t", none, none⟩ : ServerState).auth_token ∧
    (auth_callback_handler ["wine"] "user" 0 [("state", "s")]
        ⟨some "t", none, none⟩ ⟨[], []⟩).2.1.user_info
      = (⟨some "t", none, none⟩ : ServerState).user_info ∧
    (auth_callback_handler ["wine"] "user" 0 [("state", "s")]
        ⟨some "t", none, none⟩ ⟨[], []⟩).2.1.last_auth_params
      = some [("state", "s")] ∧
    (auth_callback_handler ["wine"] "user" 0 [("state", "s")]
        ⟨some "t", none, none⟩ ⟨[], []⟩).2.2 = ⟨[], []⟩ :=
  C2_invalid_request_state ["wine"] "user" 0 [("state", "s")]
    ⟨some "t", none, none⟩ ⟨[], []⟩ (by decide) (by decide)

/-- C9 (confirmed): for every inbound callback whose parameters carry
an access token (access_token or token) and no authorization code, the
handler first overwrites the stored auth token and user info, then
calls `_inject_auth_token`, which the class does not define, so the
handler raises (Except.error) before producing its success response;
the filesystem is untouched, i.e. the sentinel-probing file handoff is
never invoked on this path. -/
theorem C9_token_path_raises (root : HostPath) (envUser : String)
    (now : Nat) (params : Params) (st : ServerState) (fs : FS) (t : String)
    (hcode : has_param params "code" = false)
    (htok : access_token_of params = some t) :
    (auth_callback_handler root envUser now params st fs).1
        = Except.error () ∧
      (auth_callback_handler root envUser now params st fs).2.1.auth_token
        = some t ∧
      (auth_callback_handler root envUser now params st fs).2.1.user_info
        = some (user_info_of params) ∧
      (auth_callback_handler root envUser now params st fs).2.2 = fs := by
  simp [auth_callback_handler, hcode, htok, inject_auth_token]

theorem C9_witness :
    (auth_callback_handler ["wine"] "user" 0 [("access_token", "tok123")]
        ⟨none, none, none⟩ ⟨[], []⟩).1 = Except.error () ∧
    (auth_callback_handler ["wine"] "user" 0 [("access_token", "tok123")]
        ⟨none, none, none⟩ ⟨[], []⟩).2.1.auth_token = some "tok123" ∧
    (auth_callback_handler ["wine"] "user" 0 [("access_token", "tok123")]
        ⟨none, none, none⟩ ⟨[], []⟩).2.1.user_info
      = some (user_info_of [("access_token", "tok123")]) ∧
    (auth_callback_handler ["wine"] "user" 0 [("access_token", "tok123")]
        ⟨none, none, none⟩ ⟨[], []⟩).2.2 = ⟨[], []⟩ :=
  C9_token_path_raises ["wine"] "user" 0 [("access_token", "tok123")]
    ⟨none, none, none⟩ ⟨[], []⟩ "tok123" (by decide) (by decide)

/-- C10 (confirmed): for every inbound parameter map containing both a
code and an access_token, the capture endpoint processes only the code
path: the stored auth token and user info are left unchanged and the
access-token branch is never executed (no token response, no raise):
the authorization code takes precedence. -/
theorem C10_code_takes_precedence (root : HostPath) (envUser : String)
    (now : Nat) (params : Params) (st : ServerState) (fs : FS)
    (hcode : has_param params "code" = true)
    (_htok : has_param params "access_token" = true) :
    (auth_callback_handler root envUser now params st fs).1
        = Except.ok HandlerResult.successHtml ∧
      (auth_callback_handler root envUser now params st fs).2.1.auth_token
        = st.auth_token ∧
      (auth_callback_handler root envUser now params st fs).2.1.user_info
        = st.user_info := by
  simp [auth_callback_handler, hcode, store_auth_payload]

theorem C10_witness :
    (auth_callback_handler ["wine"] "user" 0
        [("code", "abc"), ("access_token", "t")]
        ⟨some "old", none, none⟩ ⟨[], []⟩).1
      = Except.ok HandlerResult.successHtml ∧
    (auth_callback_handler ["wine"] "user" 0
        [("code", "abc"), ("access_token", "t")]
        ⟨some "old", none, none⟩ ⟨[], []⟩).2.1.auth_token
      = (⟨some "old", none, none⟩ : ServerState).auth_token ∧
    (auth_callback_handler ["wine"] "user" 0
        [("code", "abc"), ("access_token", "t")]
        ⟨some "old", none, none⟩ ⟨[], []⟩).2.1.user_info
      = (⟨some "old", none, none⟩ : ServerState).user_info :=
  C10_code_takes_precedence ["wine"] "user" 0
    [("code", "abc"), ("access_token", "t")]
    ⟨some "old", none, none⟩ ⟨[], []⟩ (by decide) (by decide)

/-- C5 counterexample: the translate-then-reverse roundtrip fails for a
drive-subtree descendant whose segment contains a backslash: two
distinct descendants render to the same guest string, so no reverse
mapping can recover both, and the modelled reverse map indeed fails on
one of them. -/
theorem C5_counterexample :
    (["r", "drive_c", "a\x5cb"] : HostPath).take 2 = ["r", "drive_c"] ∧
    to_windows_path ["r"] ["r", "drive_c", "a\x5cb"]
      = to_windows_path ["r"] ["r", "drive_c", "a", "b"] ∧
    (["r", "drive_c", "a\x5cb"] : HostPath) ≠ ["r", "drive_c", "a", "b"] ∧
    from_windows_path ["r"] (to_windows_path ["r"] ["r", "drive_c", "a\x5cb"])
      ≠ ["r", "drive_c", "a\x5cb"] := by
  decide

/-- C5 (amended): `_to_windows_path` is pure, and is a partial inverse
on the drive subtree for paths whose segments are non-empty and free of
the backslash separator character: translating such a descendant and
then reverse-mapping it (given the same root) recovers the path; for a
path outside the drive subtree the output is the unix rendering of the
input, unchanged. -/
theorem C5_partial_inverse :
    (∀ (root : HostPath) (rest : List String),
      (∀ s ∈ rest, seg_ok s) →
      from_windows_path root (to_windows_path root (root ++ "drive_c" :: rest))
        = root ++ "drive_c" :: rest) ∧
    ∀ (root p : HostPath), p.take (root.length + 1) ≠ root ++ ["drive_c"] →
      to_windows_path root p = unix_path_string p :=
  ⟨from_to_windows, to_windows_outside⟩

theorem C5_witness :
    from_windows_path ["r"] (to_windows_path ["r"] ["r", "drive_c", "a", "b"])
        = ["r", "drive_c", "a", "b"] ∧
      to_windows_path ["r"] ["x", "y"] = unix_path_string ["x", "y"] :=
  ⟨C5_partial_inverse.1 ["r"] ["a", "b"] (by decide),
    C5_partial_inverse.2 ["r"] ["x", "y"] (by decide)⟩

/-- C6 counterexample: not every zero-exit attempt carrying a known
error signature is reclassified as Failure. The shell-bridge attempt
ignores the executable-not-found marker (it scans a smaller signature
subset), so the chain classifies it Success and does not proceed to the
next method; it also ignores stdout entirely; and the direct-launch
attempt performs no signature scan at all. -/
theorem C6_counterexample :
    managed_classify 0
        (ProcResult.completed 0 "" "Executable file path does not exist")
      = true ∧
    run_managed_chain
        ⟨ProcResult.completed 0 "" "Executable file path does not exist",
          ProcResult.timedOut, ProcResult.timedOut, ProcResult.timedOut⟩
      = (true, [0]) ∧
    managed_classify 0
        (ProcResult.completed 0 "/bin/sh: 1: Syntax error" "") = true ∧
    managed_classify 3
        (ProcResult.completed 0 "" "/bin/sh: 1: Syntax error") = true := by
  decide

/-- C6 (amended): each attempt scans only its captured stderr, against
a method-specific subset of the error signatures. A zero-exit
shell-bridge attempt whose stderr carries one of ITS signatures
(shell-syntax, unexpected-token, ShellExecuteEx-failed) is classified
Failure and the chain proceeds to the batch-indirection method; the
batch and rundll32 attempts likewise fail on their own stderr
signature subsets; the direct-launch attempt is judged by exit code
alone. -/
theorem C6_stderr_signatures :
    (∀ (sout serr : String), shell_error0 serr = true →
      managed_success0 (ProcResult.completed 0 sout serr) = false) ∧
    (∀ (ex : ManagedExec) (sout serr : String),
      ex.shellRes = ProcResult.completed 0 sout serr →
      shell_error0 serr = true →
      1 ∈ (run_managed_chain ex).2) ∧
    (∀ (sout serr : String), cmd_error1 serr = true →
      managed_success1 (ProcResult.completed 0 sout serr) = false) ∧
    (∀ (sout serr : String), shell_error2 serr = true →
      managed_success2 (ProcResult.completed 0 sout serr) = false) ∧
    ∀ (rc : Int) (sout serr : String),
      managed_success3 (ProcResult.completed rc sout serr)
        = decide (rc = 0) := by
  refine ⟨?_, ?_, ?_, ?_, ?_⟩
  · intro sout serr h
    simp [managed_success0, h]
  · intro ex sout serr hres h
    have h0 : managed_success0 ex.shellRes = false := by
      rw [hres]; simp [managed_success0, h]
    rw [run_managed_chain, if_neg (by simp [h0])]
    by_cases h1 : managed_success1 ex.cmdRes
    · simp [h1]
    · by_cases h2 : managed_success2 ex.rundllRes
      · simp [h1, h2]
      · simp [h1, h2]
  · intro sout serr h
    simp [managed_success1, h]
  · intro sout serr h
    simp [managed_success2, h]
  · intro rc sout serr
    simp [managed_success3]

theorem C6_witness :
    managed_success0
        (ProcResult.completed 0 "" "/bin/sh: 1: Syntax error") = false ∧
      1 ∈ (run_managed_chain
        ⟨ProcResult.completed 0 "" "/bin/sh: 1: Syntax error",
          ProcResult.timedOut, ProcResult.timedOut,
          ProcResult.timedOut⟩).2 :=
  ⟨C6_stderr_signatures.1 "" "/bin/sh: 1: Syntax error" (by decide),
    C6_stderr_signatures.2.1
      ⟨ProcResult.completed 0 "" "/bin/sh: 1: Syntax error",
        ProcResult.timedOut, ProcResult.timedOut, ProcResult.timedOut⟩
      "" "/bin/sh: 1: Syntax error" rfl (by decide)⟩

/-- C7 (confirmed): chain monotonicity. In a managed run, if the k-th
method is classified Success then the chain returns true and no method
after the k-th is ever invoked; in a plain run the same holds for every
method that is actually reached (an attempt only exists once its
invocation site is reached, since an exception in the first plain
method aborts the block). -/
theorem C7_chain_monotonicity :
    (∀ (ex : ManagedExec) (k : Nat), k < 4 →
      managed_classify k (managed_attempt ex k) = true →
      (run_managed_chain ex).1 = true ∧
        ∀ j ∈ (run_managed_chain ex).2, j ≤ k) ∧
    ∀ (ex : PlainExec) (k : Nat), k < 2 →
      k ∈ (run_plain_chain ex).2 →
      plain_success (plain_attempt ex k) = true →
      (run_plain_chain ex).1 = true ∧
        ∀ j ∈ (run_plain_chain ex).2, j ≤ k := by
  constructor
  · intro ex k hk hcls
    interval_cases k
    · simp only [managed_classify, managed_attempt] at hcls
      constructor <;> simp [run_managed_chain, hcls]
    · simp only [managed_classify, managed_attempt] at hcls
      by_cases h0 : managed_success0 ex.shellRes
      · constructor <;> simp [run_managed_chain, h0]
      · constructor <;> simp [run_managed_chain, h0, hcls]
    · simp only [managed_classify, managed_attempt] at hcls
      by_cases h0 : managed_success0 ex.shellRes
      · constructor <;> simp [run_managed_chain, h0]
      · by_cases h1 : managed_success1 ex.cmdRes
        · constructor <;> simp [run_managed_chain, h0, h1]
        · constructor <;> simp [run_managed_chain, h0, h1, hcls]
    · simp only [managed_classify, managed_attempt] at hcls
      by_cases h0 : managed_success0 ex.shellRes
      · constructor <;> simp [run_managed_chain, h0]
      · by_cases h1 : managed_success1 ex.cmdRes
        · constructor <;> simp [run_managed_chain, h0, h1]
        · by_cases h2 : managed_success2 ex.rundllRes
          · constructor <;> simp [run_managed_chain, h0, h1, h2]
          · constructor <;> simp [run_managed_chain, h0, h1, h2, hcls]
  · intro ex k hk hinv hcls
    interval_cases k
    · simp only [plain_attempt] at hcls
      cases hs : ex.startRes with
      | completed rc sout serr =>
        rw [hs] at hcls
        simp only [plain_success, decide_eq_true_eq] at hcls
        constructor <;> simp [run_plain_chain, hs, hcls]
      | timedOut => rw [hs] at hcls; simp [plain_success] at hcls
      | errored => rw [hs] at hcls; simp [plain_success] at hcls
    · simp only [plain_attempt] at hcls
      cases hs : ex.startRes with
      | completed rc sout serr =>
        by_cases hrc : rc = 0
        · have hone : (run_plain_chain ex).2 = [0] := by
            simp [run_plain_chain, hs, hrc]
          rw [hone] at hinv
          simp at hinv
        · cases hr : ex.rundllRes with
          | completed rc2 sout2 serr2 =>
            rw [hr] at hcls
            simp only [plain_success, decide_eq_true_eq] at hcls
            constructor <;> simp [run_plain_chain, hs, hrc, hr, hcls]
          | timedOut => rw [hr] at hcls; simp [plain_success] at hcls
          | errored => rw [hr] at hcls; simp [plain_success] at hcls
      | timedOut =>
        have hone : (run_plain_chain ex).2 = [0] := by
          simp [run_plain_chain, hs]
        rw [hone] at hinv
        simp at hinv
      | errored =>
        have hone : (run_plain_chain ex).2 = [0] := by
          simp [run_plain_chain, hs]
        rw [hone] at hinv
        simp at hinv

theorem C7_witness :
    (run_managed_chain ⟨ProcResult.completed 1 "" "",
        ProcResult.completed 0 "" "", ProcResult.timedOut,
        ProcResult.timedOut⟩).1 = true ∧
      (run_plain_chain ⟨ProcResult.completed 1 "" "",
        ProcResult.completed 0 "" ""⟩).1 = true :=
  ⟨(C7_chain_monotonicity.1 ⟨ProcResult.completed 1 "" "",
      ProcResult.completed 0 "" "", ProcResult.timedOut,
      ProcResult.timedOut⟩ 1 (by decide) (by decide)).1,
    (C7_chain_monotonicity.2 ⟨ProcResult.completed 1 "" "",
      ProcResult.completed 0 "" ""⟩ 1 (by decide) (by decide)
      (by decide)).1⟩

/-- C8 counterexample: a plain-chain first attempt with exit code 0 and
a known shell-syntax signature in its diagnostic output is classified
Success (the plain chain performs no signature scan), and the second
method is not attempted — the success criteria are NOT the same as the
managed chain's, which would classify this attempt as Failure. -/
theorem C8_counterexample :
    shell_error0 "/bin/sh: 1: Syntax error: unexpected token" = true ∧
    managed_success0 (ProcResult.completed 0 ""
        "/bin/sh: 1: Syntax error: unexpected token") = false ∧
    run_plain_chain ⟨ProcResult.completed 0 ""
        "/bin/sh: 1: Syntax error: unexpected token",
      ProcResult.completed 1 "" ""⟩ = (true, [0]) := by
  decide

/-- C8 (amended): the plain chain attempts its two methods in order —
the native start launcher, then the protocol-dispatch utility — but
each attempt is judged by exit code alone, with no diagnostic-output
signature scan: a zero-exit first attempt is Success regardless of its
output; a nonzero-exit first attempt hands over to the second method,
whose exit code decides the overall result; an exception on the first
attempt aborts the block without attempting the second. -/
theorem C8_plain_exit_code_only :
    (∀ (ex : PlainExec) (sout serr : String),
      ex.startRes = ProcResult.completed 0 sout serr →
      run_plain_chain ex = (true, [0])) ∧
    (∀ (ex : PlainExec) (rc : Int) (sout serr : String),
      ex.startRes = ProcResult.completed rc sout serr → rc ≠ 0 →
      (run_plain_chain ex).2 = [0, 1] ∧
        (run_plain_chain ex).1 = plain_success ex.rundllRes) ∧
    (∀ (ex : PlainExec), ex.startRes = ProcResult.errored →
      run_plain_chain ex = (false, [0])) ∧
    ∀ (rc : Int) (sout serr : String),
      plain_success (ProcResult.completed rc sout serr)
        = decide (rc = 0) := by
  refine ⟨?_, ?_, ?_, ?_⟩
  · intro ex sout serr h
    simp [run_plain_chain, h]
  · intro ex rc sout serr h hrc
    cases hr : ex.rundllRes <;>
      simp [run_plain_chain, h, hrc, hr, plain_success]
  · intro ex h
    simp [run_plain_chain, h]
  · intro rc sout serr
    simp [plain_success]

theorem C8_witness :
    run_plain_chain ⟨ProcResult.completed 0 "" "", ProcResult.timedOut⟩
        = (true, [0]) ∧
      plain_success (ProcResult.completed 1 "" "")
        = decide ((1 : Int) = 0) :=
  ⟨C8_plain_exit_code_only.1 ⟨ProcResult.completed 0 "" "",
      ProcResult.timedOut⟩ "" "" rfl,
    C8_plain_exit_code_only.2.2.2 1 "" ""⟩
